import Mathlib

/-!
Shallow embedding of `src/packages/turbo-tasks/src/turbo_tasks.rs`: the
`TurboTasks` engine with its interning map, invocation task cache, root-task
spawning, the scheduler glue, and the ambient-context free functions
`dynamic_call` / `intern`.

Modelling decisions:
* `NodeRef` handles are `Nat` (opaque, identity-equal references).
* `NativeFunction` identity (`&'static NativeFunction`, address-compared) is a
  `Nat`.
* The two `CHashMap`s are association lists keyed by decidable-equality keys;
  `alter` / `upsert` are unfolded into their per-key atomic read-or-insert
  semantics (the closure is always invoked by `alter`).
* `Task` values are given a fresh numeric identity drawn from a counter in the
  engine state, so that distinctness of constructed tasks is observable.
* `Task::new_native` (the excluded task layer) may fail; its success is
  abstracted by a predicate `ctorOk` passed to `dynamic_call`.
* Scheduling (`async_std::task::Builder::spawn`) is recorded in a `scheduled`
  list in the engine state; the spawned unit of work itself is embedded as
  `runScheduledUnit` over abstract lifecycle hooks.
* A Rust panic (`unwrap` on an error) is an explicit `Outcome.panicked`
  constructor carrying the message.
-/

namespace Turbo

/-- Opaque value handle (`NodeRef`): cheaply copied, identity-equal. -/
abbrev NodeRef := Nat

/-- The kind of a task: a root task built from a body factory, or a native
invocation task built from `(function, inputs)`. -/
inductive TaskKind where
  | root (functor : Nat)
  | native (func : Nat) (inputs : List NodeRef)
deriving DecidableEq, Repr

/-- A task handle. `taskId` models the identity of the `Arc<Task>` allocation:
two tasks constructed by separate constructor calls have distinct ids. -/
structure Task where
  taskId : Nat
  kind : TaskKind
deriving DecidableEq, Repr

/-- Error taxonomy of the engine (spec section 7). `invariantViolation` is the
defensive `anyhow!("Unreachable")` initial value in `dynamic_call`. -/
inductive EngineError where
  | invariantViolation
  | invocationConstructionFailed
  | noAmbientEngine
deriving DecidableEq, Repr

/-- The `TurboTasks` engine state: the interning map keyed by
`(TypeId, key)`, the invocation task cache keyed by `(function, inputs)`,
a counter supplying fresh task identities, and the list of tasks handed to
the scheduler (in order). -/
structure TurboTasks where
  interning_map : List ((Nat × Nat) × NodeRef)
  task_cache : List ((Nat × List NodeRef) × Task)
  nextTaskId : Nat
  scheduled : List Task
deriving DecidableEq, Repr

/-- Association-list lookup with decidable key equality (the read half of the
`CHashMap` per-key operations). -/
def alookup {α β : Type} [DecidableEq α] : List (α × β) → α → Option β
  | [], _ => none
  | (k, v) :: rest, a => if k = a then some v else alookup rest a

namespace TurboTasks

/-- Embedding of `TurboTasks::new()`: both caches empty. -/
def new : TurboTasks :=
  { interning_map := [], task_cache := [], nextTaskId := 0, scheduled := [] }

/-- Embedding of `TurboTasks::schedule`: hand the task to the executor (record it). The
spawned unit of work itself is `runScheduledUnit` below. -/
def schedule (tt : TurboTasks) (task : Task) : TurboTasks :=
  { tt with scheduled := tt.scheduled ++ [task] }

/-- Modelled from the spec: `Task::ensure_scheduled(engine)` is the idempotent
ensure-scheduled hook of the excluded task layer ("idempotent
ensure-scheduled(engine)", spec section 6): it schedules the task unless it
has already been scheduled. -/
def ensure_scheduled (tt : TurboTasks) (task : Task) : TurboTasks :=
  if task ∈ tt.scheduled then tt else tt.schedule task

/-- Embedding of `TurboTasks::spawn_root_task`: build an uncached root task from the body
factory, schedule it immediately, return its handle. -/
def spawn_root_task (tt : TurboTasks) (functor : Nat) : TurboTasks × Task :=
  let task : Task := ⟨tt.nextTaskId, TaskKind.root functor⟩
  (({ tt with nextTaskId := tt.nextTaskId + 1 }).schedule task, task)

/-- The defensive initial value of `result_task` in `dynamic_call`
(`Err(anyhow!("Unreachable"))`). -/
def dcInitResult : Except EngineError Task := Except.error EngineError.invariantViolation

/-- The closure passed to `task_cache.alter` in `dynamic_call`: given the
current cache entry for the key, decide the new entry and the value of
`result_task`. `Task::new_native` success is abstracted by `ctorOk`; on
success the fresh task takes identity `nextId`. Returns
(new cache entry, result_task, task to schedule if freshly constructed). -/
def dcAlter (ctorOk : Nat → List NodeRef → Bool) (nextId : Nat)
    (func : Nat) (inputs : List NodeRef) (old : Option Task) :
    Option Task × Except EngineError Task × Option Task :=
  match old with
  | some t => (some t, Except.ok t, none)
  | none =>
    if ctorOk func inputs then
      let new_task : Task := ⟨nextId, TaskKind.native func inputs⟩
      (some new_task, Except.ok new_task, some new_task)
    else
      (none, Except.error EngineError.invocationConstructionFailed, none)

/-- Embedding of `TurboTasks::dynamic_call` (explicit-engine form): atomically
probe-or-insert the invocation cache under the key `(func, inputs)`; on a
fresh miss construct and schedule a new invocation task; propagate a
construction error without inserting; on a returned task run
`ensure_scheduled`. `result_task` starts as the defensive
`Err(Unreachable)` and `alter` always invokes the closure, overwriting it. -/
def dynamic_call (ctorOk : Nat → List NodeRef → Bool) (tt : TurboTasks)
    (func : Nat) (inputs : List NodeRef) :
    TurboTasks × Except EngineError Task :=
  let result_task := dcInitResult
  let old := alookup tt.task_cache (func, inputs)
  let (newVal, result_task, toSchedule) := dcAlter ctorOk tt.nextTaskId func inputs old
  let tt1 :=
    match newVal, old, toSchedule with
    | some nt, none, some _ =>
      ({ tt with task_cache := ((func, inputs), nt) :: tt.task_cache,
                 nextTaskId := tt.nextTaskId + 1 }).schedule nt
    | _, _, _ => tt
  match result_task with
  | Except.error e => (tt1, Except.error e)
  | Except.ok task => (tt1.ensure_scheduled task, Except.ok task)

/-- The two closures passed to `interning_map.upsert` in `intern`, together
with the upsert itself: on absence invoke `fallback`, record its result in
`node1` and insert it; on presence record the existing handle in `node2`.
Returns (new state, node1, node2, number of fallback invocations). -/
def internUpsert (tt : TurboTasks) (typeTag : Nat) (key : Nat)
    (fallback : Unit → NodeRef) :
    TurboTasks × Option NodeRef × Option NodeRef × Nat :=
  match alookup tt.interning_map (typeTag, key) with
  | none =>
    let new_node := fallback ()
    ({ tt with interning_map := ((typeTag, key), new_node) :: tt.interning_map },
      some new_node, none, 1)
  | some existing_node => (tt, none, some existing_node, 0)

/-- The tail of `intern`: `if let Some(n) = node1 { return n } node2.unwrap()`,
kept as an `Option` so that the totality of the `unwrap` is a provable fact
rather than an assumption. -/
def internFinish (node1 node2 : Option NodeRef) : Option NodeRef :=
  match node1 with
  | some n => some n
  | none => node2

/-- Embedding of `TurboTasks::intern` (explicit-engine form): upsert
`(TypeId::of::<T>(), key)` in the interning map, then return whichever of
`node1` / `node2` was set. The result also carries the number of times
`fallback` was invoked (observable in Rust through side effects of the
`FnOnce`). -/
def intern (tt : TurboTasks) (typeTag : Nat) (key : Nat)
    (fallback : Unit → NodeRef) : TurboTasks × Option NodeRef × Nat :=
  let (tt1, node1, node2, calls) := internUpsert tt typeTag key fallback
  (tt1, internFinish node1 node2, calls)

end TurboTasks

/-- Result of a call that may return normally, return an error, or panic
(Rust `unwrap` on an error value aborts with a message). -/
inductive Outcome (α : Type) where
  | ok : α → Outcome α
  | err : EngineError → Outcome α
  | panicked : String → Outcome α
deriving DecidableEq, Repr

/-- The ambient-engine free function `dynamic_call`: look up the task-local
`TURBO_TASKS` binding; with no ambient engine the `?` on
`ok_or_else(...)` returns the no-ambient-engine error to the caller. -/
def dynamic_call (ctorOk : Nat → List NodeRef → Bool)
    (current : Option TurboTasks) (func : Nat) (inputs : List NodeRef) :
    Outcome (TurboTasks × Task) :=
  match current with
  | none => Outcome.err EngineError.noAmbientEngine
  | some tt =>
    match tt.dynamic_call ctorOk func inputs with
    | (tt1, Except.ok task) => Outcome.ok (tt1, task)
    | (_, Except.error e) => Outcome.err e

/-- The ambient-engine free function `intern`: with no ambient engine the code
calls `.ok_or_else(|| anyhow!("tried to call intern outside of turbo
tasks")).unwrap()`, i.e. it panics with that message instead of returning the
error; inside the engine, the trailing `node2.unwrap()` is modelled by the
`internFinish` option. -/
def intern (current : Option TurboTasks) (typeTag : Nat) (key : Nat)
    (fallback : Unit → NodeRef) : Outcome (TurboTasks × NodeRef) :=
  match current with
  | none => Outcome.panicked "tried to call intern outside of turbo tasks"
  | some tt =>
    let r := tt.intern typeTag key fallback
    match r.2.1 with
    | some n => Outcome.ok (r.1, n)
    | none => Outcome.panicked "called unwrap on a None value"

/-- Observable lifecycle events of one scheduled unit of work. -/
inductive SchedEvent where
  | setCurrentTask (taskId : Nat)
  | setCurrentEngine
  | started (taskId : Nat)
  | bodyRun (taskId : Nat)
  | finalized (taskId : Nat)
  | completed (taskId : Nat) (result : Option NodeRef)
deriving DecidableEq, Repr

/-- The lifecycle hooks the scheduled unit of work invokes: context bindings,
`execution_started`, the body (`execute`), `finalize_execution`, and
`execution_completed` — all provided by the excluded task layer, abstracted
over an observation state `σ`. -/
structure TaskHooks (σ : Type) where
  set_current : Nat → σ → σ
  set_turbo_tasks : σ → σ
  execution_started : Nat → σ → σ
  execute : Nat → σ → σ × Option NodeRef
  finalize_execution : Nat → σ → σ
  execution_completed : Nat → Option NodeRef → σ → σ

/-- The body of the unit of work spawned by `TurboTasks::schedule`: bind the
current task, bind the current engine, run `execution_started`, run the body
once to a result, run `finalize_execution`, then `execution_completed` with
that result. -/
def runScheduledUnit {σ : Type} (hooks : TaskHooks σ) (task : Task) (s : σ) : σ :=
  let s1 := hooks.set_current task.taskId s
  let s2 := hooks.set_turbo_tasks s1
  let s3 := hooks.execution_started task.taskId s2
  let (s4, result) := hooks.execute task.taskId s3
  let s5 := hooks.finalize_execution task.taskId s4
  hooks.execution_completed task.taskId result s5

/-- Event-logging instantiation of the hooks: each hook appends its event;
the body produces the given `bodyResult`. -/
def traceHooks (bodyResult : Option NodeRef) : TaskHooks (List SchedEvent) :=
  { set_current := fun id s => s ++ [SchedEvent.setCurrentTask id]
    set_turbo_tasks := fun s => s ++ [SchedEvent.setCurrentEngine]
    execution_started := fun id s => s ++ [SchedEvent.started id]
    execute := fun id s => (s ++ [SchedEvent.bodyRun id], bodyResult)
    finalize_execution := fun id s => s ++ [SchedEvent.finalized id]
    execution_completed := fun id r s => s ++ [SchedEvent.completed id r] }

/-! ### Helper lemmas -/

namespace TurboTasks

theorem ensure_scheduled_task_cache (tt : TurboTasks) (t : Task) :
    (tt.ensure_scheduled t).task_cache = tt.task_cache := by
  unfold ensure_scheduled schedule
  split <;> rfl

theorem ensure_scheduled_interning_map (tt : TurboTasks) (t : Task) :
    (tt.ensure_scheduled t).interning_map = tt.interning_map := by
  unfold ensure_scheduled schedule
  split <;> rfl

theorem ensure_scheduled_nextTaskId (tt : TurboTasks) (t : Task) :
    (tt.ensure_scheduled t).nextTaskId = tt.nextTaskId := by
  unfold ensure_scheduled schedule
  split <;> rfl

theorem mem_ensure_scheduled (tt : TurboTasks) (t : Task) :
    t ∈ (tt.ensure_scheduled t).scheduled := by
  unfold ensure_scheduled schedule
  split
  case isTrue h => exact h
  case isFalse h => simp

theorem ensure_scheduled_of_mem (tt : TurboTasks) (t : Task) (h : t ∈ tt.scheduled) :
    tt.ensure_scheduled t = tt := by
  unfold ensure_scheduled
  simp [h]

/-- Characterization of `dynamic_call` on a cache hit: the existing task is
returned and the only possible state change is the idempotent
`ensure_scheduled`. -/
theorem dynamic_call_hit (ctorOk : Nat → List NodeRef → Bool)
    (tt : TurboTasks) (func : Nat) (inputs : List NodeRef) (t : Task)
    (h : alookup tt.task_cache (func, inputs) = some t) :
    tt.dynamic_call ctorOk func inputs = (tt.ensure_scheduled t, Except.ok t) := by
  unfold dynamic_call
  simp only [h, dcAlter]

/-- Characterization of `dynamic_call` on a miss with successful construction:
a fresh task is inserted under the key, scheduled, and returned. -/
theorem dynamic_call_miss_ok (ctorOk : Nat → List NodeRef → Bool)
    (tt : TurboTasks) (func : Nat) (inputs : List NodeRef)
    (h : alookup tt.task_cache (func, inputs) = none)
    (hc : ctorOk func inputs = true) :
    tt.dynamic_call ctorOk func inputs =
      (({ tt with
          task_cache :=
            ((func, inputs), ⟨tt.nextTaskId, TaskKind.native func inputs⟩) :: tt.task_cache,
          nextTaskId := tt.nextTaskId + 1 }).schedule
            ⟨tt.nextTaskId, TaskKind.native func inputs⟩,
        Except.ok ⟨tt.nextTaskId, TaskKind.native func inputs⟩) := by
  unfold dynamic_call
  simp only [h, dcAlter, hc, if_true]
  rw [ensure_scheduled_of_mem]
  simp [schedule]

/-- Characterization of `dynamic_call` on a miss with failing construction:
the error is returned and the engine state is left untouched. -/
theorem dynamic_call_miss_fail (ctorOk : Nat → List NodeRef → Bool)
    (tt : TurboTasks) (func : Nat) (inputs : List NodeRef)
    (h : alookup tt.task_cache (func, inputs) = none)
    (hc : ctorOk func inputs = false) :
    tt.dynamic_call ctorOk func inputs =
      (tt, Except.error EngineError.invocationConstructionFailed) := by
  unfold dynamic_call
  simp [h, dcAlter, hc]

/-- After a successful `dynamic_call`, the returned task is in the cache under
its key and has been scheduled. -/
theorem dynamic_call_ok_lookup (ctorOk : Nat → List NodeRef → Bool)
    (tt tt₁ : TurboTasks) (func : Nat) (inputs : List NodeRef) (t₁ : Task)
    (h : tt.dynamic_call ctorOk func inputs = (tt₁, Except.ok t₁)) :
    alookup tt₁.task_cache (func, inputs) = some t₁ ∧ t₁ ∈ tt₁.scheduled := by
  cases hlook : alookup tt.task_cache (func, inputs) with
  | some t =>
    rw [dynamic_call_hit ctorOk tt func inputs t hlook] at h
    injection h with h1 h2
    injection h2 with h2
    subst h1
    subst h2
    rw [ensure_scheduled_task_cache]
    exact ⟨hlook, mem_ensure_scheduled _ _⟩
  | none =>
    cases hc : ctorOk func inputs with
    | true =>
      rw [dynamic_call_miss_ok ctorOk tt func inputs hlook hc] at h
      injection h with h1 h2
      injection h2 with h2
      subst h1
      subst h2
      constructor
      · simp [schedule, alookup]
      · simp [schedule]
    | false =>
      rw [dynamic_call_miss_fail ctorOk tt func inputs hlook hc] at h
      injection h with h1 h2
      exact absurd h2 (by simp)

/-- Characterization of `intern` on a hit: the existing handle is returned,
the fallback runs zero times, the state is unchanged. -/
theorem intern_hit (tt : TurboTasks) (typeTag key : Nat) (h : NodeRef)
    (fb : Unit → NodeRef) (hhit : alookup tt.interning_map (typeTag, key) = some h) :
    tt.intern typeTag key fb = (tt, some h, 0) := by
  unfold intern internUpsert internFinish
  simp only [hhit]

/-- Characterization of `intern` on a miss: the fallback runs once, its result
is stored under the key and returned. -/
theorem intern_miss (tt : TurboTasks) (typeTag key : Nat) (fb : Unit → NodeRef)
    (hmiss : alookup tt.interning_map (typeTag, key) = none) :
    tt.intern typeTag key fb =
      ({ tt with interning_map := ((typeTag, key), fb ()) :: tt.interning_map },
        some (fb ()), 1) := by
  unfold intern internUpsert internFinish
  simp only [hmiss]

/-! ### Claim theorems -/

/-- Claim C1: for every pair of `dynamic_call` invocations on the same engine
with the same `(function, inputs)` key, at most one invocation task is
constructed and both calls return the identical task handle; a call that finds
an existing entry returns it with the engine state completely unchanged — no
second task is constructed or scheduled. -/
theorem dynamic_call_dedup (ctorOk₁ ctorOk₂ : Nat → List NodeRef → Bool)
    (tt tt₁ : TurboTasks) (func : Nat) (inputs : List NodeRef) (t₁ : Task)
    (h : tt.dynamic_call ctorOk₁ func inputs = (tt₁, Except.ok t₁)) :
    tt₁.dynamic_call ctorOk₂ func inputs = (tt₁, Except.ok t₁) := by
  obtain ⟨hlook, hmem⟩ := dynamic_call_ok_lookup ctorOk₁ tt tt₁ func inputs t₁ h
  rw [dynamic_call_hit ctorOk₂ tt₁ func inputs t₁ hlook,
      ensure_scheduled_of_mem tt₁ t₁ hmem]

/-- Witness for C1: two calls with key `(0, [1, 2])` on a fresh engine; the
second call returns the task of the first and leaves the state untouched. -/
theorem dynamic_call_dedup_witness :
    TurboTasks.dynamic_call (fun _ _ => true)
        (TurboTasks.dynamic_call (fun _ _ => true) TurboTasks.new 0 [1, 2]).1 0 [1, 2] =
      ((TurboTasks.dynamic_call (fun _ _ => true) TurboTasks.new 0 [1, 2]).1,
        Except.ok ⟨0, TaskKind.native 0 [1, 2]⟩) :=
  dynamic_call_dedup (fun _ _ => true) (fun _ _ => true) TurboTasks.new _ 0 [1, 2] _ rfl

/-- Claim C4: when invocation-task construction fails, `dynamic_call` inserts
nothing (the whole engine state is unchanged), returns the construction error
synchronously, and an identical later call retries construction (here: a retry
whose construction succeeds yields a fresh task). -/
theorem dynamic_call_failure_non_poisoning (ctorOk ctorOk₂ : Nat → List NodeRef → Bool)
    (tt : TurboTasks) (func : Nat) (inputs : List NodeRef)
    (hmiss : alookup tt.task_cache (func, inputs) = none)
    (hfail : ctorOk func inputs = false)
    (hretry : ctorOk₂ func inputs = true) :
    tt.dynamic_call ctorOk func inputs =
      (tt, Except.error EngineError.invocationConstructionFailed) ∧
    (tt.dynamic_call ctorOk func inputs).1.dynamic_call ctorOk₂ func inputs =
      tt.dynamic_call ctorOk₂ func inputs ∧
    (tt.dynamic_call ctorOk₂ func inputs).2 =
      Except.ok ⟨tt.nextTaskId, TaskKind.native func inputs⟩ := by
  have e1 := dynamic_call_miss_fail ctorOk tt func inputs hmiss hfail
  refine ⟨e1, ?_, ?_⟩
  · rw [e1]
  · rw [dynamic_call_miss_ok ctorOk₂ tt func inputs hmiss hretry]

/-- Witness for C4: failing construction for key `(1, [5])` on a fresh engine
leaves the engine unchanged; the retry constructs task 0. -/
theorem dynamic_call_failure_non_poisoning_witness :
    TurboTasks.dynamic_call (fun _ _ => false) TurboTasks.new 1 [5] =
      (TurboTasks.new, Except.error EngineError.invocationConstructionFailed) ∧
    TurboTasks.dynamic_call (fun _ _ => true)
        (TurboTasks.dynamic_call (fun _ _ => false) TurboTasks.new 1 [5]).1 1 [5] =
      TurboTasks.dynamic_call (fun _ _ => true) TurboTasks.new 1 [5] ∧
    (TurboTasks.dynamic_call (fun _ _ => true) TurboTasks.new 1 [5]).2 =
      Except.ok ⟨0, TaskKind.native 1 [5]⟩ :=
  dynamic_call_failure_non_poisoning (fun _ _ => false) (fun _ _ => true)
    TurboTasks.new 1 [5] rfl rfl rfl

/-- Claim C5: two `spawn_root_task` calls — even with structurally identical
body factories, since `f₁ = f₂` is allowed — produce two distinct task
handles, both scheduled, and neither touches the invocation cache (nor the
interning map). -/
theorem spawn_root_task_no_dedup (tt : TurboTasks) (f₁ f₂ : Nat) :
    ((tt.spawn_root_task f₁).1.spawn_root_task f₂).2 ≠ (tt.spawn_root_task f₁).2 ∧
    (tt.spawn_root_task f₁).2 ∈ ((tt.spawn_root_task f₁).1.spawn_root_task f₂).1.scheduled ∧
    ((tt.spawn_root_task f₁).1.spawn_root_task f₂).2 ∈
      ((tt.spawn_root_task f₁).1.spawn_root_task f₂).1.scheduled ∧
    ((tt.spawn_root_task f₁).1.spawn_root_task f₂).1.task_cache = tt.task_cache ∧
    ((tt.spawn_root_task f₁).1.spawn_root_task f₂).1.interning_map = tt.interning_map := by
  refine ⟨?_, ?_, ?_, rfl, rfl⟩
  · intro h
    have := congrArg Task.taskId h
    simp [spawn_root_task, schedule] at this
  · simp [spawn_root_task, schedule]
  · simp [spawn_root_task, schedule]

/-- Claim C9: the cache probe-or-insert closure of `dynamic_call` is always
executed and assigns `result_task` in every branch, so the defensive initial
`Err(Unreachable)` value (`dcInitResult`, the `InvariantViolation` error) is
never returned to a caller. -/
theorem dynamic_call_never_invariant_violation (ctorOk : Nat → List NodeRef → Bool)
    (tt : TurboTasks) (func : Nat) (inputs : List NodeRef) :
    (tt.dynamic_call ctorOk func inputs).2 ≠ dcInitResult := by
  cases hlook : alookup tt.task_cache (func, inputs) with
  | some t =>
    rw [dynamic_call_hit ctorOk tt func inputs t hlook]
    simp [dcInitResult]
  | none =>
    cases hc : ctorOk func inputs with
    | true =>
      rw [dynamic_call_miss_ok ctorOk tt func inputs hlook hc]
      simp [dcInitResult]
    | false =>
      rw [dynamic_call_miss_fail ctorOk tt func inputs hlook hc]
      simp [dcInitResult]

/-- Claim C10: after the upsert in `intern` exactly one of the two
closure-result variables `node1` / `node2` holds a value, so the final
`node2.unwrap()` never panics and `intern` always returns a handle. -/
theorem intern_unwrap_total (tt : TurboTasks) (typeTag key : Nat) (fb : Unit → NodeRef) :
    ((tt.internUpsert typeTag key fb).2.1.isSome = true ∧
        (tt.internUpsert typeTag key fb).2.2.1 = none ∨
      (tt.internUpsert typeTag key fb).2.1 = none ∧
        (tt.internUpsert typeTag key fb).2.2.1.isSome = true) ∧
    (tt.intern typeTag key fb).2.1.isSome = true := by
  unfold intern internUpsert internFinish
  cases alookup tt.interning_map (typeTag, key) <;> simp

/-- Claim C2: an `intern` call whose `(type_tag, key)` pair is present returns
the existing handle without invoking the fallback (zero invocations, state
unchanged); for an absent key the fallback runs exactly once, its result is
stored under the key and returned — and a subsequent `intern` with a different
fallback returns the stored handle with the new fallback never executing. -/
theorem intern_spec (tt : TurboTasks) (typeTag key : Nat) (h : NodeRef)
    (fb₁ fb₂ : Unit → NodeRef) :
    (alookup tt.interning_map (typeTag, key) = some h →
      tt.intern typeTag key fb₁ = (tt, some h, 0)) ∧
    (alookup tt.interning_map (typeTag, key) = none →
      tt.intern typeTag key fb₁ =
        ({ tt with interning_map := ((typeTag, key), fb₁ ()) :: tt.interning_map },
          some (fb₁ ()), 1) ∧
      alookup (tt.intern typeTag key fb₁).1.interning_map (typeTag, key) = some (fb₁ ()) ∧
      (tt.intern typeTag key fb₁).1.intern typeTag key fb₂ =
        ((tt.intern typeTag key fb₁).1, some (fb₁ ()), 0)) := by
  constructor
  · intro hhit
    exact intern_hit tt typeTag key h fb₁ hhit
  · intro hmiss
    have e1 := intern_miss tt typeTag key fb₁ hmiss
    have hl : alookup (tt.intern typeTag key fb₁).1.interning_map (typeTag, key) =
        some (fb₁ ()) := by
      rw [e1]
      simp [alookup]
    exact ⟨e1, hl, intern_hit _ typeTag key (fb₁ ()) fb₂ hl⟩

/-- Witness for C2: a hit on a pre-populated map returns the stored handle 7
without running the fallback; a miss on a fresh engine stores and returns 9
with one fallback invocation; the follow-up intern with a different fallback
returns 9 and runs that fallback zero times. -/
theorem intern_spec_witness :
    (TurboTasks.intern ⟨[((3, 4), 7)], [], 0, []⟩ 3 4 (fun _ => 9) =
      (⟨[((3, 4), 7)], [], 0, []⟩, some 7, 0)) ∧
    (TurboTasks.intern TurboTasks.new 3 4 (fun _ => 9) =
      (⟨[((3, 4), 9)], [], 0, []⟩, some 9, 1)) ∧
    (TurboTasks.intern (TurboTasks.intern TurboTasks.new 3 4 (fun _ => 9)).1 3 4
        (fun _ => 11) =
      ((TurboTasks.intern TurboTasks.new 3 4 (fun _ => 9)).1, some 9, 0)) :=
  ⟨(intern_spec ⟨[((3, 4), 7)], [], 0, []⟩ 3 4 7 (fun _ => 9) (fun _ => 11)).1 rfl,
   ((intern_spec TurboTasks.new 3 4 0 (fun _ => 9) (fun _ => 11)).2 rfl).1,
   ((intern_spec TurboTasks.new 3 4 0 (fun _ => 9) (fun _ => 11)).2 rfl).2.2⟩

/-- Claim C8: the interning map key is the pair `(type_tag, key)`, so two
intern calls whose pairs differ — differing type tags with equal keys, or
equal tags with differing keys — occupy distinct entries: the second call
misses (its fallback runs once) and both entries are retrievable afterwards,
each holding its own fallback's handle. -/
theorem intern_distinct_pairs (tt : TurboTasks) (t₁ k₁ t₂ k₂ : Nat)
    (fb₁ fb₂ : Unit → NodeRef)
    (hne : (t₁, k₁) ≠ (t₂, k₂))
    (h₁ : alookup tt.interning_map (t₁, k₁) = none)
    (h₂ : alookup tt.interning_map (t₂, k₂) = none) :
    ((tt.intern t₁ k₁ fb₁).1.intern t₂ k₂ fb₂).2.2 = 1 ∧
    alookup ((tt.intern t₁ k₁ fb₁).1.intern t₂ k₂ fb₂).1.interning_map (t₁, k₁) =
      some (fb₁ ()) ∧
    alookup ((tt.intern t₁ k₁ fb₁).1.intern t₂ k₂ fb₂).1.interning_map (t₂, k₂) =
      some (fb₂ ()) := by
  have e1 := intern_miss tt t₁ k₁ fb₁ h₁
  have hl2 : alookup (tt.intern t₁ k₁ fb₁).1.interning_map (t₂, k₂) = none := by
    rw [e1]
    simp [alookup, hne, h₂]
  have e2 := intern_miss _ t₂ k₂ fb₂ hl2
  rw [e2, e1]
  refine ⟨rfl, ?_, ?_⟩
  · simp [alookup, Ne.symm hne, hne]
  · simp [alookup]

/-- Witness for C8: type tags 0 and 1 with the equal key 5 on a fresh engine
occupy two distinct entries holding handles 8 and 9. -/
theorem intern_distinct_pairs_witness :
    ((TurboTasks.intern (TurboTasks.intern TurboTasks.new 0 5 (fun _ => 8)).1 1 5
        (fun _ => 9)).2.2 = 1 ∧
    alookup (TurboTasks.intern (TurboTasks.intern TurboTasks.new 0 5 (fun _ => 8)).1 1 5
        (fun _ => 9)).1.interning_map (0, 5) = some 8 ∧
    alookup (TurboTasks.intern (TurboTasks.intern TurboTasks.new 0 5 (fun _ => 8)).1 1 5
        (fun _ => 9)).1.interning_map (1, 5) = some 9) :=
  intern_distinct_pairs TurboTasks.new 0 5 1 5 (fun _ => 8) (fun _ => 9)
    (by decide) rfl rfl

/-- Claim C6: for one function and two input lists that differ as ordered
lists (in particular permutations such as `[1, 2]` versus `[2, 1]`),
`dynamic_call` uses distinct cache keys: the two calls construct distinct
tasks and afterwards the cache holds a separate entry for each key. -/
theorem dynamic_call_input_order (ctorOk : Nat → List NodeRef → Bool)
    (tt : TurboTasks) (func : Nat) (inputs₁ inputs₂ : List NodeRef)
    (hne : inputs₁ ≠ inputs₂)
    (h₁ : alookup tt.task_cache (func, inputs₁) = none)
    (h₂ : alookup tt.task_cache (func, inputs₂) = none)
    (hc₁ : ctorOk func inputs₁ = true)
    (hc₂ : ctorOk func inputs₂ = true) :
    (tt.dynamic_call ctorOk func inputs₁).2 =
      Except.ok ⟨tt.nextTaskId, TaskKind.native func inputs₁⟩ ∧
    ((tt.dynamic_call ctorOk func inputs₁).1.dynamic_call ctorOk func inputs₂).2 =
      Except.ok ⟨tt.nextTaskId + 1, TaskKind.native func inputs₂⟩ ∧
    (⟨tt.nextTaskId, TaskKind.native func inputs₁⟩ : Task) ≠
      ⟨tt.nextTaskId + 1, TaskKind.native func inputs₂⟩ ∧
    alookup ((tt.dynamic_call ctorOk func inputs₁).1.dynamic_call ctorOk func
        inputs₂).1.task_cache (func, inputs₁) =
      some ⟨tt.nextTaskId, TaskKind.native func inputs₁⟩ ∧
    alookup ((tt.dynamic_call ctorOk func inputs₁).1.dynamic_call ctorOk func
        inputs₂).1.task_cache (func, inputs₂) =
      some ⟨tt.nextTaskId + 1, TaskKind.native func inputs₂⟩ := by
  have e1 := dynamic_call_miss_ok ctorOk tt func inputs₁ h₁ hc₁
  have hl2 : alookup (tt.dynamic_call ctorOk func inputs₁).1.task_cache (func, inputs₂) =
      none := by
    rw [e1]
    simp [schedule, alookup, hne, h₂]
  have e2 := dynamic_call_miss_ok ctorOk _ func inputs₂ hl2 hc₂
  have hn1 : (tt.dynamic_call ctorOk func inputs₁).1.nextTaskId = tt.nextTaskId + 1 := by
    rw [e1]
    simp [schedule]
  refine ⟨?_, ?_, ?_, ?_, ?_⟩
  · rw [e1]
  · rw [e2, hn1]
  · intro h
    have := congrArg Task.taskId h
    simp at this
  · rw [e2]
    rw [e1]
    simp [schedule, alookup, hne, Ne.symm hne]
  · rw [e2, hn1]
    rw [e1]
    simp [schedule, alookup]

/-- Witness for C6: on a fresh engine, `dynamic_call` with inputs `[1, 2]`
and then `[2, 1]` yields tasks 0 and 1 in two distinct cache entries. -/
theorem dynamic_call_input_order_witness :
    ((TurboTasks.dynamic_call (fun _ _ => true) TurboTasks.new 0 [1, 2]).2 =
      Except.ok ⟨0, TaskKind.native 0 [1, 2]⟩ ∧
    (TurboTasks.dynamic_call (fun _ _ => true)
        (TurboTasks.dynamic_call (fun _ _ => true) TurboTasks.new 0 [1, 2]).1 0 [2, 1]).2 =
      Except.ok ⟨1, TaskKind.native 0 [2, 1]⟩ ∧
    (⟨0, TaskKind.native 0 [1, 2]⟩ : Task) ≠ ⟨1, TaskKind.native 0 [2, 1]⟩ ∧
    alookup (TurboTasks.dynamic_call (fun _ _ => true)
        (TurboTasks.dynamic_call (fun _ _ => true) TurboTasks.new 0 [1, 2]).1 0
        [2, 1]).1.task_cache (0, [1, 2]) = some ⟨0, TaskKind.native 0 [1, 2]⟩ ∧
    alookup (TurboTasks.dynamic_call (fun _ _ => true)
        (TurboTasks.dynamic_call (fun _ _ => true) TurboTasks.new 0 [1, 2]).1 0
        [2, 1]).1.task_cache (0, [2, 1]) = some ⟨1, TaskKind.native 0 [2, 1]⟩) :=
  dynamic_call_input_order (fun _ _ => true) TurboTasks.new 0 [1, 2] [2, 1]
    (by decide) rfl rfl rfl rfl

end TurboTasks

/-- Claim C3, counterexample: the ambient-engine `intern` with no ambient
engine does not return the `NoAmbientEngine` error — it panics (the source
calls `.ok_or_else(...).unwrap()` on the absent engine), refuting the claim
that both ambient forms return the error and never panic. -/
theorem intern_no_ambient_panics :
    Turbo.intern none 0 0 (fun _ => 0) ≠ Outcome.err EngineError.noAmbientEngine ∧
    Turbo.intern none 0 0 (fun _ => 0) =
      Outcome.panicked "tried to call intern outside of turbo tasks" := by
  constructor
  · intro h
    exact absurd h (by simp [Turbo.intern])
  · rfl

/-- Claim C3, amended: with no ambient engine bound, the ambient
`dynamic_call` deterministically returns the `NoAmbientEngine` error, while
the ambient `intern` deterministically panics with the descriptive message
"tried to call intern outside of turbo tasks"; neither silently does
nothing. -/
theorem no_ambient_engine_behavior (ctorOk : Nat → List NodeRef → Bool)
    (func typeTag key : Nat) (inputs : List NodeRef) (fb : Unit → NodeRef) :
    Turbo.dynamic_call ctorOk none func inputs =
      Outcome.err EngineError.noAmbientEngine ∧
    Turbo.intern none typeTag key fb =
      Outcome.panicked "tried to call intern outside of turbo tasks" :=
  ⟨rfl, rfl⟩

/-- Claim C7: the unit of work spawned by `schedule` performs exactly this
sequence: bind the current task, bind the current engine, invoke the started
hook, run the body once to a result, invoke the finalize hook, invoke the
completed hook with that result — and the body event occurs exactly once. -/
theorem scheduled_unit_sequence (task : Task) (r : Option NodeRef) :
    runScheduledUnit (traceHooks r) task [] =
      [SchedEvent.setCurrentTask task.taskId, SchedEvent.setCurrentEngine,
        SchedEvent.started task.taskId, SchedEvent.bodyRun task.taskId,
        SchedEvent.finalized task.taskId, SchedEvent.completed task.taskId r] ∧
    (runScheduledUnit (traceHooks r) task []).count (SchedEvent.bodyRun task.taskId) = 1 := by
  refine ⟨rfl, ?_⟩
  simp [runScheduledUnit, traceHooks, List.count_cons]

end Turbo
